import Mathlib

/-!
Verification of the AirWise AQI map component.

The definitions below are a shallow embedding of the computational core of
`src/components/dashboard/AQIMap.tsx` (the `estimateAQI` inverse-distance
estimator, the AQI classification helpers, and the auto-refresh loop),
together with the classification helpers of
`src/components/dashboard/AQIGauge.tsx` and `src/pages/Alerts.tsx`.
JavaScript numbers are modelled as rationals (`ℚ`); the concrete decimal
coordinates of the repository are written as exact fractions
(e.g. `28.4089 = 284089/10000`).
-/

/-- The `Location` interface of `AQIMap.tsx`:
`{ location: string; coordinates: [number, number]; aqi: number; pm25?: number }`. -/
structure Location where
  location : String
  coordinates : ℚ × ℚ
  aqi : ℚ
  pm25 : Option ℚ := none
deriving DecidableEq

/-- JavaScript `Math.round`: the nearest integer, with halves rounded toward
positive infinity, i.e. `⌊q + 1/2⌋`. -/
def jsRound (q : ℚ) : ℤ := ⌊q + 1/2⌋

/-- The tolerance-box predicate used by `locations.find(...)` in `estimateAQI`:
`Math.abs(lat - locLat) < 0.005 && Math.abs(lng - locLng) < 0.005`. -/
def nearLoc (lat lng : ℚ) (loc : Location) : Bool :=
  |lat - loc.coordinates.1| < 5/1000 && |lng - loc.coordinates.2| < 5/1000

/-- `distSquared` from `estimateAQI`:
`Math.pow(lat - locLat, 2) + Math.pow(lng - locLng, 2)`. -/
def distSquared (lat lng : ℚ) (loc : Location) : ℚ :=
  (lat - loc.coordinates.1)^2 + (lng - loc.coordinates.2)^2

/-- The per-location weight from `estimateAQI`:
`distSquared === 0 ? 1 : 1 / distSquared`. -/
def idwWeight (lat lng : ℚ) (loc : Location) : ℚ :=
  if distSquared lat lng loc = 0 then 1 else 1 / distSquared lat lng loc

/-- One iteration of the `locations.forEach` loop of `estimateAQI`:
`weightSum += weight; aqiSum += loc.aqi * weight`, on the accumulator pair
`(weightSum, aqiSum)`. -/
def idwStep (lat lng : ℚ) (acc : ℚ × ℚ) (loc : Location) : ℚ × ℚ :=
  (acc.1 + idwWeight lat lng loc, acc.2 + loc.aqi * idwWeight lat lng loc)

/-- The final `(weightSum, aqiSum)` pair produced by the `forEach` loop of
`estimateAQI`, starting from `(0, 0)`. -/
def idwSums (locations : List Location) (lat lng : ℚ) : ℚ × ℚ :=
  locations.foldl (idwStep lat lng) (0, 0)

/-- The interpolation branch of `estimateAQI`:
`Math.round(aqiSum / weightSum)`. -/
def interpolateAQI (locations : List Location) (lat lng : ℚ) : ℚ :=
  ((jsRound ((idwSums locations lat lng).2 / (idwSums locations lat lng).1) : ℤ) : ℚ)

/-- `estimateAQI` from `AQIMap.tsx` (lines 155–183): return `0` on an empty
location set; otherwise return the `aqi` of the first location found inside
the tolerance box, and fall back to inverse-distance-weighted interpolation
when no location is inside the box. -/
def estimateAQI (locations : List Location) (lat lng : ℚ) : ℚ :=
  if locations.length = 0 then 0
  else
    match locations.find? (nearLoc lat lng) with
    | some nearbyLocation => nearbyLocation.aqi
    | none => interpolateAQI locations lat lng

/-- The weight of the specification's interpolation rule, stated from the
spec's words for comparison with the code: `weight = 1/distance²`
(squared planar Euclidean distance in degrees), and `weight = 1` when the
squared distance is exactly `0`. -/
def specWeight (lat lng : ℚ) (loc : Location) : ℚ :=
  if (lat - loc.coordinates.1)^2 + (lng - loc.coordinates.2)^2 = 0 then 1
  else 1 / ((lat - loc.coordinates.1)^2 + (lng - loc.coordinates.2)^2)

/-- The specification's interpolation formula, stated from the spec's words:
`round(Σ(weight × pollutionIndex) / Σ(weight))`, rounded to the nearest
integer. -/
def specIDW (locations : List Location) (lat lng : ℚ) : ℚ :=
  ((jsRound (((locations.map (fun loc => specWeight lat lng loc * loc.aqi)).sum) /
             ((locations.map (specWeight lat lng)).sum)) : ℤ) : ℚ)

/-- The two-station scenario of the specification:
`[{"A",(28.40,77.00),100}, {"B",(28.42,77.02),200}]`. -/
def demoLocations : List Location :=
  [⟨"A", (284/10, 77), 100, none⟩,
   ⟨"B", (2842/100, 7702/100), 200, none⟩]

/-- The fixed fallback location set substituted by `getMapData` when the
fetch fails (`AQIMap.tsx` lines 84–90). -/
def fallbackLocations : List Location :=
  [⟨"Sector 56", (284089/10000, 770926/10000), 175, none⟩,
   ⟨"DLF Cyber City", (284595/10000, 770266/10000), 160, none⟩,
   ⟨"Golf Course Road", (284321/10000, 771025/10000), 155, none⟩,
   ⟨"MG Road", (284773/10000, 770497/10000), 168, none⟩]

/-- A two-station set in which station "A" lies inside the tolerance box of
station "B"'s exact coordinates and precedes it in iteration order. -/
def shadowLocations : List Location :=
  [⟨"A", (0, 0), 10, none⟩, ⟨"B", (1/1000, 1/1000), 99, none⟩]

namespace AQIMap

/-- `getAQICategory` from `AQIMap.tsx` (lines 144–151). -/
def getAQICategory (aqi : ℚ) : String :=
  if aqi ≤ 50 then "Good"
  else if aqi ≤ 100 then "Moderate"
  else if aqi ≤ 150 then "Unhealthy for Sensitive Groups"
  else if aqi ≤ 200 then "Unhealthy"
  else if aqi ≤ 300 then "Very Unhealthy"
  else "Hazardous"

end AQIMap

/-- The record returned by `getAQILevel` in `AQIGauge.tsx`:
`{ label, color, text }`. -/
structure AQILevelInfo where
  label : String
  color : String
  text : String
deriving DecidableEq

namespace AQIGauge

/-- `getAQILevel` from `AQIGauge.tsx` (lines 9–16). -/
def getAQILevel (aqi : ℚ) : AQILevelInfo :=
  if aqi ≤ 50 then ⟨"Good", "bg-green-500", "text-green-500"⟩
  else if aqi ≤ 100 then ⟨"Moderate", "bg-yellow-500", "text-yellow-500"⟩
  else if aqi ≤ 150 then ⟨"Unhealthy for Sensitive Groups", "bg-orange-500", "text-orange-500"⟩
  else if aqi ≤ 200 then ⟨"Unhealthy", "bg-red-500", "text-red-500"⟩
  else if aqi ≤ 300 then ⟨"Very Unhealthy", "bg-purple-500", "text-purple-500"⟩
  else ⟨"Hazardous", "bg-red-900", "text-red-900"⟩

end AQIGauge

namespace Alerts

/-- `getAQILabel` from `Alerts.tsx` (lines 1067–1074). -/
def getAQILabel (aqi : ℚ) : String :=
  if aqi ≤ 50 then "Good"
  else if aqi ≤ 100 then "Moderate"
  else if aqi ≤ 150 then "Unhealthy for Sensitive Groups"
  else if aqi ≤ 200 then "Unhealthy"
  else if aqi ≤ 300 then "Very Unhealthy"
  else "Hazardous"

end Alerts

/-- The specification's classification table, stated from its words:
index ≤50 → Good; ≤100 → Moderate; ≤150 → Unhealthy for Sensitive Groups;
≤200 → Unhealthy; ≤300 → Very Unhealthy; above 300 → Hazardous. -/
def specAQITable (index : ℚ) : String :=
  if index ≤ 50 then "Good"
  else if index ≤ 100 then "Moderate"
  else if index ≤ 150 then "Unhealthy for Sensitive Groups"
  else if index ≤ 200 then "Unhealthy"
  else if index ≤ 300 then "Very Unhealthy"
  else "Hazardous"

/-- The component state driving the auto-refresh loop of `AQIMap`:
the `locations`, `error`, `isRefreshing`, `autoRefreshEnabled` and
`countdown` `useState` cells.  `errorFlag` abstracts the error banner string,
`fallbackNote` the `" (fallback data)"` suffix appended to `lastUpdated`,
and `inFlight` counts the pending `fetchGeospatialData` promises. -/
structure RefreshState where
  locations : List Location
  errorFlag : Bool
  fallbackNote : Bool
  isRefreshing : Bool
  autoRefreshEnabled : Bool
  countdown : ℕ
  inFlight : ℕ
deriving DecidableEq

/-- The events that mutate the refresh state: a one-second interval tick
(the interval exists only while `autoRefreshEnabled`), a click on the
"Refresh Now" button, a click on the auto-refresh toggle, and the completion
(success or failure) of a pending fetch. -/
inductive RefreshEvent where
  | tick
  | refreshNow
  | toggleAutoRefresh
  | fetchOk (data : List Location)
  | fetchFail
deriving DecidableEq

/-- The synchronous prefix of `getMapData`: `setIsRefreshing(true)` and the
start of an asynchronous `fetchGeospatialData()` call. -/
def startFetch (s : RefreshState) : RefreshState :=
  { s with isRefreshing := true, inFlight := s.inFlight + 1 }

/-- The `finally` block of `getMapData`: `setIsRefreshing(false)` and
`setCountdown(300)`, run when a pending fetch settles. -/
def finishFetch (s : RefreshState) : RefreshState :=
  { s with isRefreshing := false, inFlight := s.inFlight - 1, countdown := 300 }

/-- One step of the refresh loop.  `none` means the event cannot fire in
state `s`: the interval ticks only while auto-refresh is enabled (the
`useEffect` tears the interval down otherwise), the "Refresh Now" button has
`disabled={isRefreshing}`, and a fetch can only settle if one is pending.
The tick body is the `setCountdown` callback: at `countdown ≤ 1` it calls
`getMapData()` and resets to 300, otherwise it decrements.  Fetch completion
runs the `try`/`catch`/`finally` of `getMapData`: on failure the fallback
set is installed, the error flag raised and the last-updated label annotated. -/
def refreshStep (s : RefreshState) : RefreshEvent → Option RefreshState
  | RefreshEvent.tick =>
      if s.autoRefreshEnabled then
        some (if s.countdown ≤ 1 then { startFetch s with countdown := 300 }
              else { s with countdown := s.countdown - 1 })
      else none
  | RefreshEvent.refreshNow =>
      if s.isRefreshing then none else some (startFetch s)
  | RefreshEvent.toggleAutoRefresh =>
      some { s with autoRefreshEnabled := !s.autoRefreshEnabled }
  | RefreshEvent.fetchOk data =>
      if s.inFlight = 0 then none
      else some (finishFetch
        { s with locations := data, errorFlag := false, fallbackNote := false })
  | RefreshEvent.fetchFail =>
      if s.inFlight = 0 then none
      else some (finishFetch
        { s with locations := fallbackLocations, errorFlag := true, fallbackNote := true })

/-- The state right after mount: the initial `useEffect` has called
`getMapData()` (so one fetch is pending and `isRefreshing` is true),
auto-refresh defaults to enabled and the countdown to 300 seconds. -/
def initState : RefreshState :=
  { locations := [], errorFlag := false, fallbackNote := false,
    isRefreshing := true, autoRefreshEnabled := true, countdown := 300, inFlight := 1 }

/-- Run a sequence of events from a state; `none` if some event cannot fire. -/
def runEvents (s : RefreshState) : List RefreshEvent → Option RefreshState
  | [] => some s
  | e :: es =>
      match refreshStep s e with
      | some s2 => runEvents s2 es
      | none => none

/-- A state is reachable if some event sequence leads to it from the
post-mount state. -/
def Reachable (s : RefreshState) : Prop :=
  ∃ es : List RefreshEvent, runEvents initState es = some s

lemma specWeight_eq_idwWeight : specWeight = idwWeight := rfl

lemma estimateAQI_of_find_some {locations : List Location} {lat lng : ℚ}
    {loc : Location} (hne : locations.length ≠ 0)
    (h : locations.find? (nearLoc lat lng) = some loc) :
    estimateAQI locations lat lng = loc.aqi := by
  simp [estimateAQI, hne, h]

lemma estimateAQI_of_find_none {locations : List Location} {lat lng : ℚ}
    (hne : locations.length ≠ 0)
    (h : locations.find? (nearLoc lat lng) = none) :
    estimateAQI locations lat lng = interpolateAQI locations lat lng := by
  simp [estimateAQI, hne, h]

lemma idwSums_foldl (lat lng : ℚ) :
    ∀ (locations : List Location) (a b : ℚ),
      locations.foldl (idwStep lat lng) (a, b) =
        (a + (locations.map (idwWeight lat lng)).sum,
         b + (locations.map (fun loc => loc.aqi * idwWeight lat lng loc)).sum) := by
  intro locations
  induction locations with
  | nil => intro a b; simp
  | cons l ls ih =>
    intro a b
    simp only [List.foldl_cons, List.map_cons, List.sum_cons, idwStep]
    rw [ih]
    simp only [Prod.mk.injEq]
    constructor <;> ring

lemma idwSums_eq (locations : List Location) (lat lng : ℚ) :
    idwSums locations lat lng =
      ((locations.map (idwWeight lat lng)).sum,
       (locations.map (fun loc => loc.aqi * idwWeight lat lng loc)).sum) := by
  rw [idwSums, idwSums_foldl]
  simp

lemma idwWeight_pos (lat lng : ℚ) (loc : Location) : 0 < idwWeight lat lng loc := by
  unfold idwWeight
  split
  · norm_num
  · rename_i h
    have hnn : 0 ≤ distSquared lat lng loc := by
      unfold distSquared
      positivity
    have : 0 < distSquared lat lng loc := lt_of_le_of_ne hnn (Ne.symm h)
    positivity

lemma weightSum_pos {locations : List Location} (lat lng : ℚ)
    (hne : locations ≠ []) : 0 < (idwSums locations lat lng).1 := by
  rw [idwSums_eq]
  apply List.sum_pos
  · intro w hw
    obtain ⟨loc, _, rfl⟩ := List.mem_map.mp hw
    exact idwWeight_pos lat lng loc
  · simpa using hne

lemma nearLoc_self (loc : Location) :
    nearLoc loc.coordinates.1 loc.coordinates.2 loc = true := by
  simp [nearLoc]

lemma find?_first_split {α : Type} (p : α → Bool) :
    ∀ (l : List α) (x : α), l.find? p = some x →
      ∃ l1 l2, l = l1 ++ x :: l2 ∧ (∀ y ∈ l1, p y = false) ∧ p x = true := by
  intro l
  induction l with
  | nil => intro x hx; simp [List.find?] at hx
  | cons a t ih =>
    intro x hx
    by_cases hp : p a
    · rw [List.find?_cons_of_pos _ hp] at hx
      obtain rfl : a = x := by injection hx
      exact ⟨[], t, rfl, by simp, hp⟩
    · rw [List.find?_cons_of_neg _ hp] at hx
      obtain ⟨l1, l2, rfl, h1, h2⟩ := ih x hx
      refine ⟨a :: l1, l2, rfl, ?_, h2⟩
      intro y hy
      rcases List.mem_cons.mp hy with rfl | hy2
      · exact Bool.eq_false_iff.mpr hp
      · exact h1 y hy2

/-- C1: whenever the monitored set is non-empty and no location lies within
the tolerance box of the query point, `estimateAQI` equals the
specification's inverse-distance-weighting formula
`round(Σ(weight × pollutionIndex) / Σ(weight))` with `weight = 1/d²` over the
squared planar distance in degrees (`weight = 1` at squared distance exactly
0); on the two-station scenario at the equidistant point (28.41, 77.01) the
estimate is 150. -/
theorem C1_idw_interpolation :
    (∀ (locations : List Location) (lat lng : ℚ), locations ≠ [] →
       (∀ loc ∈ locations, nearLoc lat lng loc = false) →
       estimateAQI locations lat lng = specIDW locations lat lng) ∧
    estimateAQI demoLocations (2841/100) (7701/100) = 150 := by
  constructor
  · intro locations lat lng hne hfar
    have hlen : locations.length ≠ 0 := by simpa [List.length_eq_zero] using hne
    have hfind : locations.find? (nearLoc lat lng) = none := by
      rw [List.find?_eq_none]
      intro x hx
      simp [hfar x hx]
    rw [estimateAQI_of_find_none hlen hfind]
    unfold interpolateAQI specIDW
    rw [idwSums_eq, specWeight_eq_idwWeight]
    have hmap : locations.map (fun loc => loc.aqi * idwWeight lat lng loc) =
        locations.map (fun loc => idwWeight lat lng loc * loc.aqi) :=
      List.map_congr_left (fun loc _ => mul_comm _ _)
    simp only [hmap]
  · norm_num [estimateAQI, demoLocations, nearLoc, interpolateAQI, idwSums, idwStep,
      idwWeight, distSquared, jsRound, List.find?, decide_eq_false, decide_eq_true,
      abs_of_pos, abs_of_nonneg]

/-- Witness for C1: at the two-station scenario and its equidistant query
point the hypotheses hold and code and specification formula agree. -/
theorem C1_idw_interpolation_witness :
    estimateAQI demoLocations (2841/100) (7701/100) =
      specIDW demoLocations (2841/100) (7701/100) :=
  C1_idw_interpolation.1 demoLocations (2841/100) (7701/100)
    (by simp [demoLocations])
    (by intro loc hloc; fin_cases hloc <;> norm_num [nearLoc, abs_of_pos, abs_of_nonneg])

/-- C2: when at least one monitored location lies within the tolerance box of
the query point, `estimateAQI` returns the `aqi` of the first such location
in iteration order (every earlier location is outside the box), with no
interpolation performed. -/
theorem C2_first_match (locations : List Location) (lat lng : ℚ)
    (h : ∃ loc ∈ locations, nearLoc lat lng loc = true) :
    ∃ before loc after,
      locations = before ++ loc :: after ∧
      (∀ l ∈ before, nearLoc lat lng l = false) ∧
      nearLoc lat lng loc = true ∧
      estimateAQI locations lat lng = loc.aqi := by
  obtain ⟨x, hx, hpx⟩ := h
  have hsome : (locations.find? (nearLoc lat lng)).isSome :=
    List.find?_isSome.mpr ⟨x, hx, hpx⟩
  obtain ⟨loc, hfind⟩ := Option.isSome_iff_exists.mp hsome
  obtain ⟨l1, l2, heq, h1, h2⟩ := find?_first_split _ locations loc hfind
  have hlen : locations.length ≠ 0 := by
    intro h0
    rw [List.length_eq_zero] at h0
    rw [h0] at hx
    simp at hx
  exact ⟨l1, loc, l2, heq, h1, h2, estimateAQI_of_find_some hlen hfind⟩

/-- Witness for C2: at the fallback set and Sector 56's coordinates the
box is hit and the first match decomposition exists. -/
theorem C2_first_match_witness :
    ∃ before loc after,
      fallbackLocations = before ++ loc :: after ∧
      (∀ l ∈ before, nearLoc (284089/10000) (770926/10000) l = false) ∧
      nearLoc (284089/10000) (770926/10000) loc = true ∧
      estimateAQI fallbackLocations (284089/10000) (770926/10000) = loc.aqi :=
  C2_first_match fallbackLocations (284089/10000) (770926/10000)
    ⟨⟨"Sector 56", (284089/10000, 770926/10000), 175, none⟩,
     by simp [fallbackLocations], by norm_num [nearLoc]⟩

/-- C3 counterexample: in `shadowLocations` the query point (0.001, 0.001) is
exactly station "B"'s coordinates, yet `estimateAQI` returns 10 — station
"A"'s index, since "A" also lies inside the tolerance box and comes first in
iteration order — and 10 ≠ 99, "B"'s index. -/
theorem C3_exact_match_counterexample :
    (⟨"B", (1/1000, 1/1000), 99, none⟩ : Location) ∈ shadowLocations ∧
    estimateAQI shadowLocations (1/1000) (1/1000) = 10 ∧ ((10 : ℚ) ≠ 99) := by
  refine ⟨by simp [shadowLocations], ?_, by norm_num⟩
  norm_num [estimateAQI, shadowLocations, nearLoc, List.find?, decide_eq_false,
    decide_eq_true, abs_of_pos, abs_of_nonneg]

/-- C3 amended: when the query point exactly equals the coordinates of some
monitored location, `estimateAQI` returns the `aqi` of the first location
lying within the tolerance box — such a first match always exists, and it is
the exactly-matching location's `aqi` whenever that location is the first
in-box one. -/
theorem C3_exact_match (locations : List Location) (loc : Location)
    (hmem : loc ∈ locations) (lat lng : ℚ)
    (hlat : lat = loc.coordinates.1) (hlng : lng = loc.coordinates.2) :
    (∃ first, locations.find? (nearLoc lat lng) = some first ∧
       nearLoc lat lng first = true ∧
       estimateAQI locations lat lng = first.aqi) ∧
    (locations.find? (nearLoc lat lng) = some loc →
       estimateAQI locations lat lng = loc.aqi) := by
  subst hlat; subst hlng
  have hlen : locations.length ≠ 0 := by
    intro h0
    rw [List.length_eq_zero] at h0
    rw [h0] at hmem
    simp at hmem
  have hsome : (locations.find? (nearLoc loc.coordinates.1 loc.coordinates.2)).isSome :=
    List.find?_isSome.mpr ⟨loc, hmem, nearLoc_self loc⟩
  obtain ⟨first, hfind⟩ := Option.isSome_iff_exists.mp hsome
  exact ⟨⟨first, hfind, List.find?_some hfind, estimateAQI_of_find_some hlen hfind⟩,
         fun hf => estimateAQI_of_find_some hlen hf⟩

/-- Witness for C3: at the fallback set, querying Sector 56's exact
coordinates (it is the first in-box location) returns its index 175. -/
theorem C3_exact_match_witness :
    estimateAQI fallbackLocations (284089/10000) (770926/10000) = 175 :=
  (C3_exact_match fallbackLocations
      ⟨"Sector 56", (284089/10000, 770926/10000), 175, none⟩
      (by simp [fallbackLocations]) (284089/10000) (770926/10000) rfl rfl).2
    (by norm_num [fallbackLocations, List.find?, nearLoc, decide_eq_true,
      decide_eq_false, abs_of_pos, abs_of_nonneg])

/-- C4 counterexample: a singleton set whose station reports the fractional
index 3/2; a query outside the tolerance box is estimated as
`Math.round(3/2) = 2 ≠ 3/2`, so the claim's "exactly" fails. -/
theorem C4_singleton_counterexample :
    estimateAQI [⟨"X", (0, 0), 3/2, none⟩] 1 1 = 2 ∧ ((2 : ℚ) ≠ 3/2) := by
  refine ⟨?_, by norm_num⟩
  norm_num [estimateAQI, nearLoc, interpolateAQI, idwSums, idwStep, idwWeight,
    distSquared, jsRound, List.find?, decide_eq_false, decide_eq_true,
    abs_of_pos, abs_of_nonneg]

/-- C4 amended: on a one-element set `estimateAQI` never errs and returns the
element's `pollutionIndex` exactly when the query is inside the tolerance
box, and `Math.round` of it otherwise; hence exactly the element's
`pollutionIndex` for every query point whenever that index is an integer. -/
theorem C4_singleton_estimate (loc : Location) (lat lng : ℚ) :
    estimateAQI [loc] lat lng =
      (if nearLoc lat lng loc then loc.aqi else ((jsRound loc.aqi : ℤ) : ℚ)) ∧
    ((∃ n : ℤ, loc.aqi = (n : ℚ)) → estimateAQI [loc] lat lng = loc.aqi) := by
  have hlen : ([loc] : List Location).length ≠ 0 := by simp
  have key : estimateAQI [loc] lat lng =
      (if nearLoc lat lng loc then loc.aqi else ((jsRound loc.aqi : ℤ) : ℚ)) := by
    by_cases hnear : nearLoc lat lng loc = true
    · rw [if_pos hnear]
      exact estimateAQI_of_find_some hlen (by simp [List.find?, hnear])
    · have hfalse : nearLoc lat lng loc = false := by simpa using hnear
      rw [if_neg hnear,
        estimateAQI_of_find_none hlen (by simp [List.find?, hfalse])]
      unfold interpolateAQI
      rw [idwSums_eq]
      have hw : idwWeight lat lng loc ≠ 0 := ne_of_gt (idwWeight_pos lat lng loc)
      simp only [List.map_cons, List.map_nil, List.sum_cons, List.sum_nil, add_zero]
      rw [mul_div_assoc, div_self hw, mul_one]
  refine ⟨key, ?_⟩
  rintro ⟨n, hn⟩
  rw [key]
  by_cases hnear : nearLoc lat lng loc = true
  · rw [if_pos hnear]
  · rw [if_neg hnear, hn, jsRound, Int.floor_int_add]
    norm_num

/-- Witness for C4: a singleton station with the integer index 150 is
returned exactly at a far-away query point. -/
theorem C4_singleton_estimate_witness :
    estimateAQI [⟨"X", (0, 0), 150, none⟩] 1 1 = 150 :=
  (C4_singleton_estimate ⟨"X", (0, 0), 150, none⟩ 1 1).2 ⟨150, by norm_num⟩

/-- C5: `estimateAQI` is total and never divides by zero: the empty set
yields the defined value 0; a location coincident with the query point gets
weight 1 through the zero-distance branch rather than `1/0`; and on any
non-empty set the weight sum is strictly positive, so the final division is
never by zero. -/
theorem C5_no_division_by_zero :
    (∀ lat lng : ℚ, estimateAQI [] lat lng = 0) ∧
    (∀ (lat lng : ℚ) (loc : Location),
       distSquared lat lng loc = 0 → idwWeight lat lng loc = 1) ∧
    (∀ (lat lng : ℚ) (locations : List Location), locations ≠ [] →
       0 < (idwSums locations lat lng).1) :=
  ⟨fun lat lng => by norm_num [estimateAQI],
   fun lat lng loc h => by rw [idwWeight, if_pos h],
   fun lat lng locations hne => weightSum_pos lat lng hne⟩

/-- Witness for C5: a station coincident with the origin has weight 1, and
the two-station demo set has a strictly positive weight sum. -/
theorem C5_no_division_by_zero_witness :
    idwWeight 0 0 ⟨"X", (0, 0), 7, none⟩ = 1 ∧ 0 < (idwSums demoLocations 0 0).1 :=
  ⟨C5_no_division_by_zero.2.1 0 0 ⟨"X", (0, 0), 7, none⟩ (by norm_num [distSquared]),
   C5_no_division_by_zero.2.2 0 0 demoLocations (by simp [demoLocations])⟩

/-- C9: the AQI classification table is reproduced identically by
`getAQICategory` (AQIMap), the label of `getAQILevel` (AQIGauge) and
`getAQILabel` (Alerts), and agrees with the specification's threshold table
at every index value. -/
theorem C9_classification_agreement (aqi : ℚ) :
    AQIMap.getAQICategory aqi = (AQIGauge.getAQILevel aqi).label ∧
    AQIMap.getAQICategory aqi = Alerts.getAQILabel aqi ∧
    AQIMap.getAQICategory aqi = specAQITable aqi := by
  refine ⟨?_, rfl, rfl⟩
  unfold AQIMap.getAQICategory AQIGauge.getAQILevel
  split_ifs <;> rfl

lemma tick_none_of_disabled (s : RefreshState) (h : s.autoRefreshEnabled = false) :
    refreshStep s RefreshEvent.tick = none := by
  simp [refreshStep, h]

lemma tick_decrement (s : RefreshState) (hen : s.autoRefreshEnabled = true)
    (hgt : 1 < s.countdown) :
    refreshStep s RefreshEvent.tick = some { s with countdown := s.countdown - 1 } := by
  unfold refreshStep
  rw [if_pos hen, if_neg (by omega)]

/-- C6 counterexample: in the reachable post-mount state the initial fetch is
still in flight (`isRefreshing = true`, the Refreshing state), yet one
interval tick decrements the countdown from 300 to 299 — the countdown does
decrement while a fetch is in flight. -/
theorem C6_tick_counterexample :
    Reachable initState ∧
    initState.isRefreshing = true ∧
    runEvents initState [RefreshEvent.tick] = some { initState with countdown := 299 } :=
  ⟨⟨[], rfl⟩, rfl, by decide⟩

/-- C6 amended: a tick decrements the countdown once per second whenever
auto-refresh is enabled and the countdown is above 1 — regardless of whether
a fetch is in flight — and the tick can never fire while auto-refresh is
disabled. -/
theorem C6_tick_gating :
    (∀ s : RefreshState, s.autoRefreshEnabled = false →
       refreshStep s RefreshEvent.tick = none) ∧
    (∀ s : RefreshState, s.autoRefreshEnabled = true → 1 < s.countdown →
       refreshStep s RefreshEvent.tick = some { s with countdown := s.countdown - 1 }) :=
  ⟨tick_none_of_disabled, tick_decrement⟩

/-- Witness for C6: with auto-refresh off the tick is refused; from the
post-mount state a tick decrements 300 to 299. -/
theorem C6_tick_gating_witness :
    refreshStep { initState with autoRefreshEnabled := false } RefreshEvent.tick = none ∧
    refreshStep initState RefreshEvent.tick = some { initState with countdown := 299 } :=
  ⟨C6_tick_gating.1 { initState with autoRefreshEnabled := false } rfl,
   C6_tick_gating.2 initState rfl (by decide)⟩

/-- C7 counterexample: tick down to 299, toggle auto-refresh off, toggle it
back on — the countdown stands at 299 (not 300), and the next tick brings it
to 298: re-enabling resumes from the paused value instead of resetting. -/
theorem C7_toggle_counterexample :
    runEvents initState [RefreshEvent.tick, RefreshEvent.toggleAutoRefresh,
        RefreshEvent.toggleAutoRefresh] = some { initState with countdown := 299 } ∧
    runEvents initState [RefreshEvent.tick, RefreshEvent.toggleAutoRefresh,
        RefreshEvent.toggleAutoRefresh, RefreshEvent.tick] =
      some { initState with countdown := 298 } := by
  constructor <;> decide

/-- C7 amended: disabling auto-refresh stops the countdown (no tick can fire
while disabled), but toggling never changes the countdown value, so
re-enabling resumes from the paused value rather than from 300; the reset to
300 happens only when a tick expires the countdown or a fetch settles. -/
theorem C7_toggle_preserves_countdown :
    (∀ s : RefreshState, s.autoRefreshEnabled = false →
       refreshStep s RefreshEvent.tick = none) ∧
    (∀ s : RefreshState, refreshStep s RefreshEvent.toggleAutoRefresh =
       some { s with autoRefreshEnabled := !s.autoRefreshEnabled }) :=
  ⟨tick_none_of_disabled, fun _ => rfl⟩

/-- Witness for C7: the tick is refused with auto-refresh off, and toggling
the post-mount state flips only the enabled flag (countdown still 300). -/
theorem C7_toggle_preserves_countdown_witness :
    refreshStep { initState with autoRefreshEnabled := false } RefreshEvent.tick = none ∧
    refreshStep initState RefreshEvent.toggleAutoRefresh =
      some { initState with autoRefreshEnabled := false } :=
  ⟨C7_toggle_preserves_countdown.1 { initState with autoRefreshEnabled := false } rfl,
   C7_toggle_preserves_countdown.2 initState⟩

/-- C8: whenever a fetch is pending, its failure installs the fixed
4-location fallback set, raises the error flag, annotates the last-updated
label as fallback data, resets the countdown to 300 and clears
`isRefreshing`; the estimator then has non-empty input and a query at
Sector 56's exact coordinates yields 175. -/
theorem C8_fetch_failure_fallback (s : RefreshState) (h : ¬ s.inFlight = 0) :
    ∃ s2, refreshStep s RefreshEvent.fetchFail = some s2 ∧
      s2.locations = fallbackLocations ∧
      s2.errorFlag = true ∧
      s2.fallbackNote = true ∧
      s2.countdown = 300 ∧
      s2.isRefreshing = false ∧
      s2.locations ≠ [] ∧
      estimateAQI s2.locations (284089/10000) (770926/10000) = 175 := by
  refine ⟨finishFetch
      { s with
        locations := fallbackLocations
        errorFlag := true
        fallbackNote := true },
      ?_, rfl, rfl, rfl, rfl, rfl, by simp [finishFetch, fallbackLocations], ?_⟩
  · unfold refreshStep
    rw [if_neg h]
  · show estimateAQI fallbackLocations (284089/10000) (770926/10000) = 175
    norm_num [estimateAQI, fallbackLocations, nearLoc, List.find?, decide_eq_true,
      decide_eq_false, abs_of_pos, abs_of_nonneg]

/-- Witness for C8: the post-mount state has a pending fetch, and its failure
produces the fallback state. -/
theorem C8_fetch_failure_fallback_witness :
    ∃ s2, refreshStep initState RefreshEvent.fetchFail = some s2 ∧
      s2.locations = fallbackLocations ∧
      s2.errorFlag = true ∧
      s2.fallbackNote = true ∧
      s2.countdown = 300 ∧
      s2.isRefreshing = false ∧
      s2.locations ≠ [] ∧
      estimateAQI s2.locations (284089/10000) (770926/10000) = 175 :=
  C8_fetch_failure_fallback initState (by decide)

/-- C10 counterexample: in the reachable post-mount state a fetch is in
flight, and the "Refresh Now" trigger cannot fire at all — the button is
rendered with `disabled={isRefreshing}` — so a user mashing it cannot start
an overlapping fetch; the claim's "in particular" path is guarded. -/
theorem C10_refresh_now_counterexample :
    Reachable initState ∧ initState.isRefreshing = true ∧
    refreshStep initState RefreshEvent.refreshNow = none :=
  ⟨⟨[], rfl⟩, rfl, rfl⟩

set_option maxRecDepth 4000 in
/-- C10 amended: the countdown timer has no in-flight guard: after 300 ticks
from the post-mount state the initial fetch is still pending and the expiring
countdown starts a second fetch, leaving two fetches in flight; the "Refresh
Now" button, by contrast, is disabled while `isRefreshing` and can never
start an overlapping fetch itself. -/
theorem C10_timer_overlap :
    ((runEvents initState (List.replicate 300 RefreshEvent.tick)).map
       RefreshState.inFlight = some 2) ∧
    (∀ s : RefreshState, s.isRefreshing = true →
       refreshStep s RefreshEvent.refreshNow = none) :=
  ⟨by decide, fun s h => by simp [refreshStep, h]⟩

/-- Witness for C10: in the post-mount state a fetch is in flight and the
"Refresh Now" trigger is refused there. -/
theorem C10_timer_overlap_witness :
    refreshStep initState RefreshEvent.refreshNow = none :=
  C10_timer_overlap.2 initState rfl
